import Mathlib

/-!
Formal model of the CRM dashboard core (src/app.py): the reconciliation
merge ("Apply Edits to Full Dataset" handler, lines 246-250), the geocode
client `ors_geocode` (lines 37-53) and the enrichment loop driven by
`need_mask` (lines 84-120).

Modelling conventions:
* A cell value (`Val`) is either a missing marker (`Val.na`, pandas NaN),
  a number, or a non-numeric string; `pd.to_numeric(..., errors="coerce")`
  maps `num` to itself and everything else to NaN.
* A dataset row (`Row`) carries its `__row_id__` (the index used by
  `set_index`/`update`/`reset_index`) plus the remaining column values in
  a fixed positional column order shared by the full dataset and the
  edited view (the edited view is rendered from `filtered`, which has the
  same columns as `base`).
* `DataFrame.update` overwrites a cell only with non-NaN values from the
  argument, aligns rows of the argument to the receiver's index (rows of
  the edited view whose id is absent from the base are dropped), and
  raises when the argument's index has duplicate labels; `merge` models
  the whole button handler as a pure function returning `Except`.
* The geocode client's HTTP exchange is an abstract `Response`:
  a transport failure (any exception from `requests.get`), or a status
  code with an optional parsed body (`none` = `r.json()` raised /
  unusable), the body being the `features` list where a feature's
  coordinate pair is `none` when extraction of
  `feats[0]["geometry"]["coordinates"]` or the float conversions would
  raise.  The `try`/`except` wrapper makes all of those return
  `(None, None)`, i.e. `Option.none` here.
* The enrichment loop is modelled over `GeoRow` (the columns the loop
  reads and writes); the geocode service is an oracle
  `geo : String → Option (Int × Int)` returning the already-swapped
  `(lat, lon)` pair or `none` for unresolved, and the model counts one
  client invocation per `ors_geocode` call site execution.
-/

/-- A scalar cell value as pandas sees it: missing (NaN), numeric, or a
non-numeric string. -/
inductive Val where
  | na : Val
  | num : Int → Val
  | str : String → Val
deriving DecidableEq, Repr

/-- A dataset record: its `__row_id__` plus the other columns' values in
positional order. -/
structure Row where
  id : Int
  vals : List Val
deriving DecidableEq, Repr

/-- Errors of the merge handler.  `identityError` models the `ValueError`
pandas raises from `base_idx.update(upd)` when the edited view's
`__row_id__` index has duplicate labels (spec name: `IdentityError`). -/
inductive MergeError where
  | identityError : MergeError
deriving DecidableEq, Repr

/-- Boolean membership of an id in a list of ids. -/
def memId (x : Int) : List Int → Bool
  | [] => false
  | y :: ys => x == y || memId x ys

/-- Duplicate detection on the edited view's id labels, as
`Index.has_duplicates`. -/
def hasDup : List Int → Bool
  | [] => false
  | x :: xs => memId x xs || hasDup xs

/-- One cell of `DataFrame.update`: a NaN in the edited view does not
overwrite the base value; any other value does (`overwrite=True` with
`mask = isna(that)`). -/
def updateVal (b e : Val) : Val := if e = Val.na then b else e

/-- One row of `DataFrame.update`: if the edited view holds a row with
the same id, overwrite this row's cells with its non-NaN cells; otherwise
leave the row untouched.  The id itself is the index and is never
written. -/
def updateRow (edited : List Row) (r : Row) : Row :=
  match edited.find? (fun e => e.id == r.id) with
  | some e => { r with vals := List.zipWith updateVal r.vals e.vals }
  | none => r

/-- The "Apply Edits to Full Dataset" handler:
`upd = edited.set_index(ROW_ID); base_idx = base.set_index(ROW_ID);
base_idx.update(upd); base_idx.reset_index()`.  `update` raises on a
duplicate index in `upd`; otherwise every base row is updated in place
and rows of `upd` with unknown ids are ignored. -/
def merge (full edited : List Row) : Except MergeError (List Row) :=
  if hasDup (edited.map Row.id) then
    Except.error MergeError.identityError
  else
    Except.ok (full.map (updateRow edited))

/-- The complete button handler's effect on the session dataset:
`st.session_state.df_base` (line 250) is replaced only when `update`
completes; an exception aborts the script run and leaves the session
dataset untouched. -/
def applyEdits (base edited : List Row) : List Row :=
  match merge base edited with
  | Except.ok d => d
  | Except.error _ => base

/-- A candidate feature of the geocode response; `coords` is the
`(longitude, latitude)` pair, `none` when the geometry is malformed so
that extraction or `float()` raises. -/
structure Feature where
  coords : Option (Int × Int)
deriving DecidableEq, Repr

/-- Outcome of the HTTP exchange inside `ors_geocode`: a transport
failure, or a status code with an optionally-parsed `features` list. -/
inductive Response where
  | transportError : Response
  | success : Nat → Option (List Feature) → Response
deriving DecidableEq, Repr

/-- The geocode client (src/app.py lines 37-53).  Returns the swapped
`(lat, lon)` pair, or `none` wherever the Python code returns
`(None, None)` — non-200 status, unparseable body, empty feature list,
malformed first feature, or any exception caught by the `try` block. -/
def ors_geocode (r : Response) : Option (Int × Int) :=
  match r with
  | Response.transportError => none
  | Response.success status body =>
    if status == 200 then
      match body with
      | none => none
      | some [] => none
      | some (f :: _) =>
        match f.coords with
        | none => none
        | some (lon, lat) => some (lat, lon)
    else none

/-- The columns the enrichment loop reads and writes for one row:
`Location`, `Customer`, `lat`, `lon` (coordinates `none` when
`pd.to_numeric(..., errors="coerce")` yields NaN). -/
structure GeoRow where
  id : Int
  location : String
  customer : String
  lat : Option Int
  lon : Option Int
deriving DecidableEq, Repr

/-- The `need_mask` predicate for one row:
`lat_num.isna() | lon_num.isna()`. -/
def needsGeo (r : GeoRow) : Bool := r.lat.isNone || r.lon.isNone

/-- The `parts` list: `Location` always, `Customer` only when that
column exists (`useCustomer`). -/
def queryParts (useCustomer : Bool) (r : GeoRow) : List String :=
  r.location :: (if useCustomer then [r.customer] else [])

/-- Python's `" ".join(tokens)`: tokens separated by single spaces. -/
def joinTokens : List String → String
  | [] => ""
  | [p] => p
  | p :: ps => p ++ " " ++ joinTokens ps

/-- Python's `str.lower()` (ASCII case folding on the character list). -/
def strLower (s : String) : String := String.mk (s.data.map Char.toLower)

/-- Python's `str.strip()`: whitespace removed from both ends. -/
def strTrim (s : String) : String :=
  String.mk (((s.data.dropWhile Char.isWhitespace).reverse.dropWhile
    Char.isWhitespace).reverse)

/-- Token filter of the query builder: `p and p.lower() != "nan"`. -/
def keepToken (p : String) : Bool := p != "" && strLower p != "nan"

/-- The query string:
`" ".join([p for p in parts if p and p.lower() != "nan"]).strip()`. -/
def buildQuery (useCustomer : Bool) (r : GeoRow) : String :=
  strTrim (joinTokens ((queryParts useCustomer r).filter keepToken))

/-- One iteration of the geocoding loop on a row of `todo`
(src/app.py lines 107-117): every row in the work-set triggers exactly
one `ors_geocode` call (counted in the second component); on a resolved
pair both `lat` and `lon` are written, otherwise the row is left
untouched.  Rows outside the work-set are never visited (0 calls). -/
def enrichRow (geo : String → Option (Int × Int)) (useCustomer : Bool)
    (r : GeoRow) : GeoRow × Nat :=
  if needsGeo r then
    match geo (buildQuery useCustomer r) with
    | some (la, lo) => ({ r with lat := some la, lon := some lo }, 1)
    | none => (r, 1)
  else (r, 0)

/-- The full enrichment run over the dataset: the work-set
`todo = base[need_mask]` is processed row by row and results are written
back into `base` by original index, which is equivalent to mapping
`enrichRow` over the rows; the second component counts client
invocations. -/
def enrich (geo : String → Option (Int × Int)) (useCustomer : Bool) :
    List GeoRow → List GeoRow × Nat
  | [] => ([], 0)
  | r :: rs =>
    ((enrichRow geo useCustomer r).1 :: (enrich geo useCustomer rs).1,
      (enrichRow geo useCustomer r).2 + (enrich geo useCustomer rs).2)

/-- The lat/lon pairing invariant: coordinates are both present or both
absent. -/
def bothOrNeither (r : GeoRow) : Bool := r.lat.isSome == r.lon.isSome

/-- A geocode oracle that never resolves (e.g. no connectivity, or the
service finds no candidates). -/
def geoNone : String → Option (Int × Int) := fun _ => none

/-- A geocode oracle that resolves every query to a fixed coordinate
pair (the mocked "Paris" client of the spec's scenario). -/
def geoParis : String → Option (Int × Int) := fun _ => some (48, 2)

/-- A row whose constructed geocode query is empty. -/
def emptyRow : GeoRow := GeoRow.mk 1 "" "" none none

/-! ## Helper lemmas -/

/-- `memId` decides list membership of an id. -/
theorem memId_eq_false_of_not_mem (x : Int) (l : List Int) (h : x ∉ l) :
    memId x l = false := by
  induction l with
  | nil => rfl
  | cons y ys ih =>
    unfold memId
    have hxy : (x == y) = false :=
      beq_eq_false_iff_ne.mpr (fun he => h (he ▸ List.mem_cons_self x ys))
    rw [hxy, ih (fun hm => h (List.mem_cons_of_mem y hm))]
    rfl

/-- A duplicate-free id list passes the duplicate check. -/
theorem hasDup_eq_false_of_nodup (l : List Int) (h : l.Nodup) :
    hasDup l = false := by
  induction l with
  | nil => rfl
  | cons x xs ih =>
    rw [List.nodup_cons] at h
    unfold hasDup
    rw [memId_eq_false_of_not_mem x xs h.1, ih h.2]
    rfl

/-- Updating a row with itself changes nothing cell-wise. -/
theorem zipWith_updateVal_self (l : List Val) :
    List.zipWith updateVal l l = l := by
  induction l with
  | nil => rfl
  | cons a as ih =>
    simp only [List.zipWith_cons_cons, ih, updateVal, ite_self]

/-- Mapping a function that fixes every element of a list is the
identity on that list. -/
theorem map_eq_self_of_fixed (l : List Row) (f : Row → Row)
    (h : ∀ r ∈ l, f r = r) : l.map f = l := by
  induction l with
  | nil => rfl
  | cons a as ih =>
    simp only [List.map_cons, h a (List.mem_cons_self a as),
      ih (fun r hr => h r (List.mem_cons_of_mem a hr))]

/-- A successful merge is exactly the cell-wise update of the full
dataset. -/
theorem merge_ok_eq (full edited res : List Row)
    (hok : merge full edited = Except.ok res) :
    res = full.map (updateRow edited) := by
  unfold merge at hok
  split at hok
  · exact Except.noConfusion hok
  · injection hok with h
    exact h.symm

/-- Indexing a `zipWith` through `getElem?`. -/
theorem zipWith_getq (f : Val → Val → Val) (as bs : List Val) (j : Nat) :
    (List.zipWith f as bs)[j]? = as[j]?.bind (fun a => bs[j]?.map (f a)) := by
  induction as generalizing bs j with
  | nil => simp
  | cons a as ih =>
    cases bs with
    | nil => simp
    | cons b bs =>
      cases j with
      | zero => simp
      | succ j => simpa using ih bs j

/-! ## Claims about the reconciliation merge -/

/-- Claim C1: merging an unmodified filtered subset of the full dataset
back into it is the identity: with unique RowIDs in the full dataset and
an edited view whose rows are a subsequence of the full dataset's rows
(same ids, same values), `merge` returns the full dataset unchanged. -/
theorem merge_roundtrip_identity (full edited : List Row)
    (hsub : edited.Sublist full)
    (hnodup : (full.map Row.id).Nodup) :
    merge full edited = Except.ok full := by
  have hednodup : (edited.map Row.id).Nodup :=
    (hsub.map Row.id).nodup hnodup
  have hfix : ∀ r ∈ full, updateRow edited r = r := by
    intro r hr
    unfold updateRow
    cases hf : edited.find? (fun e => e.id == r.id) with
    | none => rfl
    | some e =>
      have hee : e ∈ edited := List.mem_of_find?_eq_some hf
      have hid : e.id = r.id := by
        have hbeq := List.find?_some hf
        simp only [beq_iff_eq] at hbeq
        exact hbeq
      have her : e = r :=
        List.inj_on_of_nodup_map hnodup (hsub.subset hee) hr hid
      rw [her]
      simp [zipWith_updateVal_self, updateVal]
  unfold merge
  rw [hasDup_eq_false_of_nodup _ hednodup]
  simp only [Bool.false_eq_true, if_false]
  rw [map_eq_self_of_fixed full _ hfix]

/-- Claim C1 witness: a concrete two-row dataset merged with its
one-row filtered view. -/
theorem merge_roundtrip_identity_witness :
    merge [Row.mk 1 [Val.num 5], Row.mk 2 [Val.na]] [Row.mk 2 [Val.na]] =
      Except.ok [Row.mk 1 [Val.num 5], Row.mk 2 [Val.na]] :=
  merge_roundtrip_identity _ _
    (List.Sublist.cons _ (List.Sublist.refl _)) (by decide)

/-- Claim C2: a successful merge leaves every row of the full dataset
whose RowID does not occur in the edited view entirely unchanged — the
result holds the very same record at the same position. -/
theorem merge_preserves_untouched_rows (full edited res : List Row)
    (hok : merge full edited = Except.ok res)
    (i : Nat) (hi : i < full.length)
    (habs : full[i].id ∉ edited.map Row.id) :
    res[i]? = some full[i] := by
  rw [merge_ok_eq full edited res hok, List.getElem?_map,
    List.getElem?_eq_getElem hi]
  have hf : edited.find? (fun e => e.id == full[i].id) = none := by
    rw [List.find?_eq_none]
    intro e he hbeq
    exact habs (List.mem_map.mpr ⟨e, he, eq_of_beq hbeq⟩)
  simp [updateRow, hf]

/-- Claim C2 witness: row 1 is untouched when only row 2 appears in the
edited view. -/
theorem merge_preserves_untouched_rows_witness :
    ([Row.mk 1 [Val.num 7], Row.mk 2 [Val.str "y"]] : List Row)[0]? =
      some (Row.mk 1 [Val.num 7]) :=
  merge_preserves_untouched_rows
    [Row.mk 1 [Val.num 7], Row.mk 2 [Val.str "x"]]
    [Row.mk 2 [Val.str "y"]]
    [Row.mk 1 [Val.num 7], Row.mk 2 [Val.str "y"]]
    (by rfl) 0 (by decide) (by decide)

/-- Claim C4 counterexample: the edited view adds a record with the new
RowID 2, yet the merged result is just the original one-row dataset —
`DataFrame.update` aligns the edited view to the base index and silently
drops rows with unknown ids, so nothing is appended. -/
theorem merge_drops_added_rows_counterexample :
    merge [Row.mk 1 []] [Row.mk 1 [], Row.mk 2 []] =
      Except.ok [Row.mk 1 []] := by rfl

/-- Claim C4 (amended): records of the edited view whose RowID is not in
the full dataset are ignored, not appended; a successful merge returns a
dataset with exactly the full dataset's RowIDs, in order. -/
theorem merge_result_ids_eq_full_ids (full edited res : List Row)
    (hok : merge full edited = Except.ok res) :
    res.map Row.id = full.map Row.id := by
  rw [merge_ok_eq full edited res hok, List.map_map]
  apply List.map_congr_left
  intro r _
  unfold Function.comp updateRow
  cases hf : edited.find? (fun e => e.id == r.id) <;> rfl

/-- Claim C4 (amended) witness: merging a view that contains the unknown
RowID 2 yields a result whose ids are exactly the base's ids. -/
theorem merge_result_ids_eq_full_ids_witness :
    ([Row.mk 1 []] : List Row).map Row.id =
      ([Row.mk 1 []] : List Row).map Row.id :=
  merge_result_ids_eq_full_ids [Row.mk 1 []] [Row.mk 1 [], Row.mk 2 []]
    [Row.mk 1 []] (by rfl)

/-- Claim C5: an edited view with duplicate RowIDs makes the merge fail
with `IdentityError` (pandas raises from `update` before any assignment,
so the session's full dataset is never replaced — no `Except.ok` result
exists for the caller to store). -/
theorem merge_duplicate_ids_error (full edited : List Row)
    (hdup : hasDup (edited.map Row.id) = true) :
    merge full edited = Except.error MergeError.identityError ∧
      applyEdits full edited = full := by
  have hm : merge full edited = Except.error MergeError.identityError := by
    unfold merge
    rw [hdup]
    rfl
  refine ⟨hm, ?_⟩
  unfold applyEdits
  rw [hm]

/-- Claim C5 witness: a two-row edited view that repeats RowID 1. -/
theorem merge_duplicate_ids_error_witness :
    merge [Row.mk 1 [Val.num 3]] [Row.mk 1 [], Row.mk 1 []] =
        Except.error MergeError.identityError ∧
      applyEdits [Row.mk 1 [Val.num 3]] [Row.mk 1 [], Row.mk 1 []] =
        [Row.mk 1 [Val.num 3]] :=
  merge_duplicate_ids_error _ _ (by rfl)

/-- Claim C9: a missing (NaN) cell of the edited view is not applied by
the merge — the matching row of the result keeps the full dataset's
previous value at that column, so clearing a field to empty in the
editor is silently dropped. -/
theorem merge_na_cell_not_applied (full edited res : List Row)
    (i j : Nat) (r rr e : Row)
    (hok : merge full edited = Except.ok res)
    (hr : full[i]? = some r)
    (hrr : res[i]? = some rr)
    (hfind : edited.find? (fun x => x.id == r.id) = some e)
    (hna : e.vals[j]? = some Val.na) :
    rr.vals[j]? = r.vals[j]? := by
  rw [merge_ok_eq full edited res hok] at hrr
  rw [List.getElem?_map, hr] at hrr
  have hrr' : rr = updateRow edited r := by
    simp only [Option.map_some'] at hrr
    exact (Option.some_inj.mp hrr).symm
  rw [hrr']
  unfold updateRow
  rw [hfind]
  show (List.zipWith updateVal r.vals e.vals)[j]? = r.vals[j]?
  rw [zipWith_getq, hna]
  cases hv : r.vals[j]? with
  | none => rfl
  | some a => simp [updateVal]

/-- Claim C9 witness: the edited view clears the only field of row 1 to
NaN; the merged row keeps the original value. -/
theorem merge_na_cell_not_applied_witness :
    (Row.mk 1 [Val.str "keep"]).vals[0]? =
      (Row.mk 1 [Val.str "keep"]).vals[0]? :=
  merge_na_cell_not_applied [Row.mk 1 [Val.str "keep"]] [Row.mk 1 [Val.na]]
    [Row.mk 1 [Val.str "keep"]] 0 0
    (Row.mk 1 [Val.str "keep"]) (Row.mk 1 [Val.str "keep"]) (Row.mk 1 [Val.na])
    (by rfl) (by rfl) (by rfl) (by rfl) (by rfl)

/-! ## Claims about the geocode client -/

/-- Unfolding equation of `ors_geocode` on a completed HTTP exchange. -/
theorem ors_geocode_success_eq (s : Nat) (b : Option (List Feature)) :
    ors_geocode (Response.success s b) =
      if s == 200 then
        match b with
        | none => none
        | some [] => none
        | some (f :: _) =>
          match f.coords with
          | none => none
          | some (lon, lat) => some (lat, lon)
      else none := rfl

/-- Claim C6: every failure mode of the lookup — transport failure,
non-success status, malformed (unparseable) body, or empty candidate
list — makes `ors_geocode` return the unresolved result `none`; the
function is total, so no exception ever reaches the caller. -/
theorem ors_geocode_failure_unresolved (r : Response)
    (h : r = Response.transportError ∨
      (∃ s b, r = Response.success s b ∧ s ≠ 200) ∨
      (∃ s, r = Response.success s none) ∨
      (∃ s, r = Response.success s (some []))) :
    ors_geocode r = none := by
  rcases h with h | ⟨s, b, h, hs⟩ | ⟨s, h⟩ | ⟨s, h⟩ <;> subst h
  · rfl
  · rw [ors_geocode_success_eq, beq_eq_false_iff_ne.mpr hs]
    rfl
  · rw [ors_geocode_success_eq]
    cases hsb : (s == 200) <;> simp [hsb]
  · rw [ors_geocode_success_eq]
    cases hsb : (s == 200) <;> simp [hsb]

/-- Claim C6 witness: a transport failure resolves to unresolved. -/
theorem ors_geocode_failure_unresolved_witness :
    ors_geocode Response.transportError = none :=
  ors_geocode_failure_unresolved Response.transportError (Or.inl rfl)

/-- Claim C10: a successful (status 200) response whose body parses and
holds at least one candidate feature with a well-formed coordinate pair
resolves to the first feature's coordinates, swapped from the response's
`(longitude, latitude)` order into `(latitude, longitude)`. -/
theorem ors_geocode_first_feature_swap (lon lat : Int) (rest : List Feature) :
    ors_geocode (Response.success 200 (some (Feature.mk (some (lon, lat)) :: rest))) =
      some (lat, lon) := rfl

/-! ## Claims about the enrichment pipeline -/

/-- A run over rows that all already carry coordinates performs zero
client invocations. -/
theorem enrich_zero_calls_of_none_needed (geo : String → Option (Int × Int))
    (u : Bool) (ds : List GeoRow) (h : ∀ r ∈ ds, needsGeo r = false) :
    (enrich geo u ds).2 = 0 := by
  induction ds with
  | nil => rfl
  | cons r rs ih =>
    have hr : needsGeo r = false := h r (List.mem_cons_self r rs)
    have hrs := ih (fun x hx => h x (List.mem_cons_of_mem r hx))
    simp [enrich, enrichRow, hr, hrs]

/-- Claim C3 counterexample: one row whose address the service cannot
resolve.  The first run makes one client call and leaves the row without
coordinates, so the second run's work-set is NOT empty: it makes one
further client call, not zero — unresolved rows are re-queried on every
run. -/
theorem enrich_twice_second_run_calls_counterexample :
    ¬ ((enrich geoNone false
        ((enrich geoNone false [GeoRow.mk 1 "Nowhere" "" none none]).1)).2 = 0) := by
  decide

/-- Claim C3 (amended): the second of two back-to-back `enrich` runs
performs zero client invocations provided the first run resolved every
row of its work-set (every row of the once-enriched dataset carries both
coordinates, so the second work-set is empty); rows left unresolved by
the first run would be re-queried. -/
theorem enrich_second_run_zero_calls (geo : String → Option (Int × Int))
    (u : Bool) (ds : List GeoRow)
    (h : ∀ r ∈ (enrich geo u ds).1, needsGeo r = false) :
    (enrich geo u ((enrich geo u ds).1)).2 = 0 :=
  enrich_zero_calls_of_none_needed geo u _ h

/-- Claim C3 (amended) witness: with a service that resolves every
query, the second run over a one-row dataset makes zero calls. -/
theorem enrich_second_run_zero_calls_witness :
    (enrich geoParis false
      ((enrich geoParis false [GeoRow.mk 1 "Paris" "" none none]).1)).2 = 0 :=
  enrich_second_run_zero_calls geoParis false
    [GeoRow.mk 1 "Paris" "" none none] (by decide)

/-- Claim C7 counterexample: a work-set row whose constructed query is
empty (its `Location` is empty and no other field is configured) still
causes exactly one client invocation — the loop calls `ors_geocode(q)`
unconditionally, with no empty-query guard. -/
theorem empty_query_call_counterexample :
    buildQuery false emptyRow = "" ∧
      (enrich geoNone false [emptyRow]).2 = 1 := by
  decide

/-- Claim C7 (amended): a work-set row whose constructed query is empty
triggers exactly one client call, carrying the empty query text; it ends
up unresolved (row untouched) only because that call returns the
unresolved result, not because the pipeline skipped it. -/
theorem empty_query_still_one_call (geo : String → Option (Int × Int))
    (u : Bool) (r : GeoRow)
    (hneed : needsGeo r = true) (hq : buildQuery u r = "") :
    (enrichRow geo u r).2 = 1 ∧
      (geo "" = none → (enrichRow geo u r).1 = r) := by
  unfold enrichRow
  rw [hq, hneed]
  cases hg : geo "" with
  | none => simp
  | some p =>
    cases p with
    | mk la lo => simp [hg]

/-- Claim C7 (amended) witness: the concrete empty-location row under
the never-resolving service. -/
theorem empty_query_still_one_call_witness :
    (enrichRow geoNone false emptyRow).2 = 1 ∧
      (geoNone "" = none → (enrichRow geoNone false emptyRow).1 = emptyRow) :=
  empty_query_still_one_call geoNone false emptyRow (by rfl) (by decide)

/-- Case split for one loop iteration: a row is either left entirely
untouched, or both of its coordinates are written from a resolved
pair. -/
theorem enrichRow_cases (geo : String → Option (Int × Int)) (u : Bool)
    (r : GeoRow) :
    (enrichRow geo u r).1 = r ∨
      ∃ la lo, geo (buildQuery u r) = some (la, lo) ∧
        (enrichRow geo u r).1 = { r with lat := some la, lon := some lo } := by
  unfold enrichRow
  cases hn : needsGeo r with
  | false => simp
  | true =>
    cases hg : geo (buildQuery u r) with
    | none => simp
    | some p =>
      cases p with
      | mk la lo =>
        right
        exact ⟨la, lo, rfl, by simp⟩

/-- One loop iteration preserves the lat/lon pairing invariant. -/
theorem enrichRow_pairing (geo : String → Option (Int × Int)) (u : Bool)
    (r : GeoRow) (h : bothOrNeither r = true) :
    bothOrNeither (enrichRow geo u r).1 = true := by
  rcases enrichRow_cases geo u r with hc | ⟨la, lo, _, hc⟩
  · rw [hc]; exact h
  · rw [hc]; rfl

/-- Claim C8: the pipeline never writes one coordinate without the
other: if every record of a dataset has `lat`/`lon` both absent or both
present, the same holds after an enrichment run; and each loop iteration
either leaves its row untouched (failure) or writes both coordinates of
a resolved pair (success) — no partial write. -/
theorem enrich_coordinate_pairing (geo : String → Option (Int × Int))
    (u : Bool) (ds : List GeoRow) (r : GeoRow)
    (hds : ∀ x ∈ ds, bothOrNeither x = true) :
    (∀ x ∈ (enrich geo u ds).1, bothOrNeither x = true) ∧
      ((enrichRow geo u r).1 = r ∨
        ∃ la lo, geo (buildQuery u r) = some (la, lo) ∧
          (enrichRow geo u r).1 = { r with lat := some la, lon := some lo }) := by
  refine ⟨?_, enrichRow_cases geo u r⟩
  induction ds with
  | nil => simp [enrich]
  | cons x xs ih =>
    simp only [enrich, List.mem_cons]
    rintro y (hy | hy)
    · rw [hy]
      exact enrichRow_pairing geo u x (hds x (List.mem_cons_self x xs))
    · exact ih (fun z hz => hds z (List.mem_cons_of_mem x hz)) y hy

/-- Claim C8 witness: a resolving run over a one-row dataset without
coordinates, and the untouched/both-written case split for a second
concrete row. -/
theorem enrich_coordinate_pairing_witness :
    (∀ x ∈ (enrich geoParis false [GeoRow.mk 1 "Paris" "" none none]).1,
        bothOrNeither x = true) ∧
      ((enrichRow geoParis false (GeoRow.mk 2 "Rome" "" none none)).1 =
          GeoRow.mk 2 "Rome" "" none none ∨
        ∃ la lo,
          geoParis (buildQuery false (GeoRow.mk 2 "Rome" "" none none)) =
              some (la, lo) ∧
            (enrichRow geoParis false (GeoRow.mk 2 "Rome" "" none none)).1 =
              GeoRow.mk 2 "Rome" "" (some la) (some lo)) :=
  enrich_coordinate_pairing geoParis false
    [GeoRow.mk 1 "Paris" "" none none] (GeoRow.mk 2 "Rome" "" none none)
    (by decide)
